import Mathlib

/-!
Shallow embedding of `rog-core/src/rogcore.rs` (the `RogCore` hardware-mode
controller).  The environment (`Env`) models which kernel control paths exist,
which opens/writes succeed, whether the native Intel pstate interface is
available and which of its setters succeed, and the output of the `rfkill
list` command.  Configuration is modelled as an in-memory copy (`mem`) and a
persisted copy (`disk`); `config.read()` copies disk to mem and
`config.write()` copies mem to disk.  Every operation returns its
`Except` result, the resulting configuration state, and a trace of
side effects (file writes, config persistence, log events, pstate setter
calls, spawned commands) in program order.
-/

deriving instance DecidableEq for Except

namespace Rog

/-- Fan-control path variant A, `FAN_TYPE_1_PATH` in the source. -/
def FAN_TYPE_1_PATH : String := "/sys/devices/platform/asus-nb-wmi/throttle_thermal_policy"

/-- Fan-control path variant B, `FAN_TYPE_2_PATH` in the source. -/
def FAN_TYPE_2_PATH : String := "/sys/devices/platform/asus-nb-wmi/fan_boost_mode"

/-- AMD boost-fallback path, `AMD_BOOST_PATH` in the source. -/
def AMD_BOOST_PATH : String := "/sys/devices/system/cpu/cpufreq/boost"

/-- Battery charge-limit path, `BAT_CHARGE_PATH` in the source. -/
def BAT_CHARGE_PATH : String := "/sys/class/power_supply/BAT0/charge_control_end_threshold"

/-- The `FanLevel` enum of the source. -/
inductive FanLevel where
  | Normal
  | Boost
  | Silent
deriving DecidableEq, Repr

/-- Per-profile performance parameters held in the external `Config`
(fields accessed by the source as `min_percentage`, `max_percentage`,
`no_turbo`). -/
structure PerfParams where
  min_percentage : Nat
  max_percentage : Nat
  no_turbo : Bool
deriving DecidableEq, Repr

/-- The `mode_performance` record of the external `Config`. -/
structure ModePerformance where
  normal : PerfParams
  boost : PerfParams
  silent : PerfParams
deriving DecidableEq, Repr

/-- In-memory view of the external `Config` store: the fields this core
reads and mutates (`fan_mode`, `bat_charge_limit`, `mode_performance`).
Bytes are modelled as `Nat`. -/
structure Config where
  fan_mode : Nat
  bat_charge_limit : Nat
  mode_performance : ModePerformance
deriving DecidableEq, Repr

/-- Configuration store with its in-memory (`mem`) and persisted (`disk`)
copies; `Config::read` copies `disk` into `mem`, `Config::write` copies
`mem` onto `disk`. -/
structure ConfigState where
  mem : Config
  disk : Config
deriving DecidableEq, Repr

/-- Error values the embedded operations can return, one constructor per
distinct error source in the Rust code (io `NotFound` from `get_fan_path`,
an open failure, each fallible pstate setter, and `RogError::ParseFanLevel`). -/
inductive RogErr where
  | ioNotFound
  | ioOpen
  | pstateMin
  | pstateMax
  | pstateNoTurbo
  | parseFanLevel
deriving DecidableEq, Repr

/-- Observable side effects, recorded in program order: a `write_all` to a
control path with the exact bytes written, a `config.write()` call, log
events at each level, the three pstate setter calls with their arguments,
and a spawned external command with its arguments. -/
inductive Effect where
  | fileWrite (path : String) (data : String)
  | configWrite
  | logInfo (msg : String)
  | logWarn (msg : String)
  | logError (msg : String)
  | pstateSetMin (v : Nat)
  | pstateSetMax (v : Nat)
  | pstateSetNoTurbo (b : Bool)
  | spawn (cmd : String) (args : List String)
deriving DecidableEq, Repr

/-- Simulated platform environment: which control paths exist, which opens
and writes succeed, whether `intel_pstate::PState::new()` succeeds and which
setters succeed, and the result of running `rfkill list`
(`none` = the command failed to run; `some (success, out)` = it ran with
exit-status success flag `success` and textual stdout `out`). -/
structure Env where
  fan1Exists : Bool
  fan2Exists : Bool
  fanOpenOk : Bool
  fanWriteOk : Bool
  pstateAvail : Bool
  pstateMinOk : Bool
  pstateMaxOk : Bool
  pstateNoTurboOk : Bool
  boostOpenOk : Bool
  boostWriteOk : Bool
  chargeOpenOk : Bool
  chargeWriteOk : Bool
  rfkillList : Option (Bool × String)
deriving DecidableEq, Repr

/-- Embedding of `impl From<u8> for FanLevel`: 0, 1, 2 map to the three
profiles and every other byte falls to the wildcard arm returning `Normal`. -/
def FanLevel.from_u8 (n : Nat) : FanLevel :=
  match n with
  | 0 => FanLevel.Normal
  | 1 => FanLevel.Boost
  | 2 => FanLevel.Silent
  | _ => FanLevel.Normal

/-- Embedding of `impl From<FanLevel> for u8`. -/
def FanLevel.to_u8 (n : FanLevel) : Nat :=
  match n with
  | FanLevel.Normal => 0
  | FanLevel.Boost => 1
  | FanLevel.Silent => 2

/-- Character-list matcher: does `pat` occur at the head of `l`?
Used to embed Rust's `str::contains`. -/
def matchesAt : List Char → List Char → Bool
  | [], _ => true
  | _ :: _, [] => false
  | a :: as, b :: bs => a == b && matchesAt as bs

/-- Embedding of Rust's `str::contains(pat)`: `pat` occurs as a contiguous
substring somewhere in the character list. -/
def containsPat (pat : List Char) : List Char → Bool
  | [] => matchesAt pat []
  | c :: cs => matchesAt pat (c :: cs) || containsPat pat cs

/-- String-level wrapper for `containsPat`: `str_contains s pat` embeds
Rust's `s.contains(pat)`. -/
def str_contains (s pat : String) : Bool :=
  containsPat pat.data s.data

/-- Embedding of Rust's `str::to_lowercase` (per-character lowercasing; the
inputs of interest are ASCII). -/
def to_lowercase (s : String) : String :=
  String.mk (s.data.map Char.toLower)

/-- Embedding of `impl FromStr for FanLevel`: lowercase the input and match
it against the three profile names, anything else is `ParseFanLevel`. -/
def FanLevel.from_str (s : String) : Except RogErr FanLevel :=
  if to_lowercase s = "normal" then Except.ok FanLevel.Normal
  else if to_lowercase s = "boost" then Except.ok FanLevel.Boost
  else if to_lowercase s = "silent" then Except.ok FanLevel.Silent
  else Except.error RogErr.parseFanLevel

/-- Embedding of `RogCore::get_fan_path`: variant A if it exists, else
variant B if it exists, else an io `NotFound` error. -/
def get_fan_path (env : Env) : Except RogErr String :=
  if env.fan1Exists then Except.ok FAN_TYPE_1_PATH
  else if env.fan2Exists then Except.ok FAN_TYPE_2_PATH
  else Except.error RogErr.ioNotFound

/-- Embedding of `RogCore::set_pstate_for_fan_mode`.  If
`intel_pstate::PState::new()` succeeds, the arm for `mode` calls
`set_min_perf_pct`, `set_max_perf_pct`, `set_no_turbo` in that order, each
propagating its error with `?`.  Otherwise the AMD boost path is opened
(open failure is logged at warn level and propagated) and the negation of
the profile's `no_turbo` flag is written as "0"/"1" (write failure logged
at error level, not propagated). -/
def set_pstate_for_fan_mode (env : Env) (mode : FanLevel) (config : Config) :
    Except RogErr Unit × List Effect :=
  if env.pstateAvail then
    match mode with
    | FanLevel.Normal =>
        let t1 := [Effect.pstateSetMin config.mode_performance.normal.min_percentage]
        if !env.pstateMinOk then (Except.error RogErr.pstateMin, t1)
        else
          let t2 := t1 ++ [Effect.pstateSetMax config.mode_performance.normal.max_percentage]
          if !env.pstateMaxOk then (Except.error RogErr.pstateMax, t2)
          else
            let t3 := t2 ++ [Effect.pstateSetNoTurbo config.mode_performance.normal.no_turbo]
            if !env.pstateNoTurboOk then (Except.error RogErr.pstateNoTurbo, t3)
            else (Except.ok (), t3 ++ [Effect.logInfo "Intel CPU Power"])
    | FanLevel.Boost =>
        let t1 := [Effect.pstateSetMin config.mode_performance.boost.min_percentage]
        if !env.pstateMinOk then (Except.error RogErr.pstateMin, t1)
        else
          let t2 := t1 ++ [Effect.pstateSetMax config.mode_performance.boost.max_percentage]
          if !env.pstateMaxOk then (Except.error RogErr.pstateMax, t2)
          else
            let t3 := t2 ++ [Effect.pstateSetNoTurbo config.mode_performance.boost.no_turbo]
            if !env.pstateNoTurboOk then (Except.error RogErr.pstateNoTurbo, t3)
            else (Except.ok (), t3 ++ [Effect.logInfo "Intel CPU Power"])
    | FanLevel.Silent =>
        let t1 := [Effect.pstateSetMin config.mode_performance.silent.min_percentage]
        if !env.pstateMinOk then (Except.error RogErr.pstateMin, t1)
        else
          let t2 := t1 ++ [Effect.pstateSetMax config.mode_performance.silent.max_percentage]
          if !env.pstateMaxOk then (Except.error RogErr.pstateMax, t2)
          else
            let t3 := t2 ++ [Effect.pstateSetNoTurbo config.mode_performance.silent.no_turbo]
            if !env.pstateNoTurboOk then (Except.error RogErr.pstateNoTurbo, t3)
            else (Except.ok (), t3 ++ [Effect.logInfo "Intel CPU Power"])
  else
    let t0 := [Effect.logInfo "Setting pstate for AMD CPU"]
    if !env.boostOpenOk then
      (Except.error RogErr.ioOpen, t0 ++ [Effect.logWarn "Failed to open AMD boost"])
    else
      match mode with
      | FanLevel.Normal =>
          let boost := if config.mode_performance.normal.no_turbo then "0" else "1"
          (Except.ok (),
            t0 ++ [Effect.fileWrite AMD_BOOST_PATH boost]
               ++ (if env.boostWriteOk then [] else [Effect.logError "Could not write"])
               ++ [Effect.logInfo "AMD CPU Turbo"])
      | FanLevel.Boost =>
          let boost := if config.mode_performance.boost.no_turbo then "0" else "1"
          (Except.ok (),
            t0 ++ [Effect.fileWrite AMD_BOOST_PATH boost]
               ++ (if env.boostWriteOk then [] else [Effect.logError "Could not write"])
               ++ [Effect.logInfo "AMD CPU Turbo"])
      | FanLevel.Silent =>
          let boost := if config.mode_performance.silent.no_turbo then "0" else "1"
          (Except.ok (),
            t0 ++ [Effect.fileWrite AMD_BOOST_PATH boost]
               ++ (if env.boostWriteOk then [] else [Effect.logError "Could not write"])
               ++ [Effect.logInfo "AMD CPU Turbo"])

/-- Embedding of `RogCore::fan_mode_reload`: resolve the fan path (`?`),
open it (`?`), write the stored `fan_mode` followed by a newline (a write
failure is logged at error level, not propagated), run the pstate step for
`FanLevel::from(config.fan_mode)` (`?`), then log at info level. -/
def fan_mode_reload (env : Env) (cs : ConfigState) :
    Except RogErr Unit × ConfigState × List Effect :=
  match get_fan_path env with
  | Except.error e => (Except.error e, cs, [])
  | Except.ok path =>
      if !env.fanOpenOk then (Except.error RogErr.ioOpen, cs, [])
      else
        let t1 := [Effect.fileWrite path (toString cs.mem.fan_mode ++ "\n")]
                  ++ (if env.fanWriteOk then [] else [Effect.logError "Could not write"])
        let res := set_pstate_for_fan_mode env (FanLevel.from_u8 cs.mem.fan_mode) cs.mem
        match res.1 with
        | Except.error e => (Except.error e, cs, t1 ++ res.2)
        | Except.ok _ =>
            (Except.ok (), cs, t1 ++ res.2 ++ [Effect.logInfo "Reloaded fan mode"])

/-- Embedding of `RogCore::set_fan_mode`: resolve the fan path (`?`), open
it (`?`), assign `config.fan_mode = n`, call `config.write()`, write `n`
followed by a newline to the fan path (write failure logged at error level,
not propagated), log at info level, then run the pstate step for
`FanLevel::from(n)` (`?`). -/
def set_fan_mode (env : Env) (n : Nat) (cs : ConfigState) :
    Except RogErr Unit × ConfigState × List Effect :=
  match get_fan_path env with
  | Except.error e => (Except.error e, cs, [])
  | Except.ok path =>
      if !env.fanOpenOk then (Except.error RogErr.ioOpen, cs, [])
      else
        let mem := { cs.mem with fan_mode := n }
        let cs2 : ConfigState := { mem := mem, disk := mem }
        let t1 := [Effect.configWrite,
                   Effect.fileWrite path (toString n ++ "\n")]
                  ++ (if env.fanWriteOk then [] else [Effect.logError "Could not write"])
                  ++ [Effect.logInfo "Fan mode set"]
        let res := set_pstate_for_fan_mode env (FanLevel.from_u8 n) cs2.mem
        (res.1, cs2, t1 ++ res.2)

/-- Embedding of `RogCore::fan_mode_step`: `config.read()` (reload the
in-memory copy from disk), take `n = config.fan_mode`, wrap the step number
(`n + 1` when `n < 2`, else `0`), and call `set_fan_mode` with it. -/
def fan_mode_step (env : Env) (cs : ConfigState) :
    Except RogErr Unit × ConfigState × List Effect :=
  let cs1 : ConfigState := { cs with mem := cs.disk }
  let n := cs1.mem.fan_mode
  let n1 := if n < 2 then n + 1 else 0
  set_fan_mode env n1 cs1

/-- Embedding of `RogCore::set_charge_limit`: warn when `limit` is outside
20..=100, open the charge path (open failure warned and propagated), write
the decimal string of `limit` (write failure logged at error level, not
propagated), log at info level, assign `config.bat_charge_limit = limit`,
call `config.write()`, and return success. -/
def set_charge_limit (env : Env) (limit : Nat) (cs : ConfigState) :
    Except RogErr Unit × ConfigState × List Effect :=
  let t0 := if limit < 20 ∨ limit > 100
            then [Effect.logWarn "charge limit must be between 20-100"] else []
  if !env.chargeOpenOk then
    (Except.error RogErr.ioOpen, cs,
      t0 ++ [Effect.logWarn "Failed to open battery charge limit path"])
  else
    let t1 := t0 ++ [Effect.fileWrite BAT_CHARGE_PATH (toString limit)]
              ++ (if env.chargeWriteOk then [] else [Effect.logError "Could not write"])
              ++ [Effect.logInfo "Battery charge limit"]
    let mem := { cs.mem with bat_charge_limit := limit }
    (Except.ok (), { mem := mem, disk := mem }, t1 ++ [Effect.configWrite])

/-- Embedding of `RogCore::toggle_airplane_mode`.  The `rfkill list`
invocation is modelled by `env.rfkillList`; stdout is modelled as text.  On
success with the substring ": yes" present an unblock-all command is
spawned, on success without it a block-all command is spawned, and when the
command failed to run or exited non-zero only a warning is logged. -/
def toggle_airplane_mode (env : Env) : List Effect :=
  match env.rfkillList with
  | Option.some (success, out) =>
      if success then
        if str_contains out ": yes" then
          [Effect.spawn "rfkill" ["unblock", "all"]]
        else
          [Effect.spawn "rfkill" ["block", "all"]]
      else [Effect.logWarn "Could not list rf devices"]
  | Option.none => [Effect.logWarn "Could not list rf devices"]

/-- The specification's `step` function on profiles: the cyclic successor
Normal to Boost to Silent and back to Normal.  This is the spec side of the
refinement claim about `fan_mode_step`; the code side is the numeric wrap
inside `fan_mode_step`. -/
def step_spec : FanLevel → FanLevel
  | FanLevel.Normal => FanLevel.Boost
  | FanLevel.Boost => FanLevel.Silent
  | FanLevel.Silent => FanLevel.Normal

/-- The per-profile parameter record the source selects for a given mode
(`config.mode_performance.normal` and so on), used to state the pstate
theorems uniformly over the three match arms. -/
def active_params (mode : FanLevel) (c : Config) : PerfParams :=
  match mode with
  | FanLevel.Normal => c.mode_performance.normal
  | FanLevel.Boost => c.mode_performance.boost
  | FanLevel.Silent => c.mode_performance.silent

/-! Concrete fixtures used by witnesses and counterexamples. -/

/-- Sample performance parameters with turbo enabled. -/
def pp_fast : PerfParams := { min_percentage := 30, max_percentage := 100, no_turbo := false }

/-- Sample performance parameters with turbo disabled. -/
def pp_slow : PerfParams := { min_percentage := 10, max_percentage := 60, no_turbo := true }

/-- Sample `mode_performance` record. -/
def mp_fix : ModePerformance := { normal := pp_fast, boost := pp_fast, silent := pp_slow }

/-- Sample config with `fan_mode = 0`. -/
def cfg0 : Config := { fan_mode := 0, bat_charge_limit := 60, mode_performance := mp_fix }

/-- Sample config with `fan_mode = 1`. -/
def cfg1 : Config := { fan_mode := 1, bat_charge_limit := 60, mode_performance := mp_fix }

/-- Sample config with the out-of-range `fan_mode = 3`. -/
def cfg3 : Config := { fan_mode := 3, bat_charge_limit := 60, mode_performance := mp_fix }

/-- Configuration state whose memory and disk copies agree on `c`. -/
def csOf (c : Config) : ConfigState := { mem := c, disk := c }

/-- Environment where both fan paths exist, every open and write succeeds,
and the native pstate interface is present with all setters succeeding. -/
def envAll : Env :=
  { fan1Exists := true, fan2Exists := true, fanOpenOk := true, fanWriteOk := true,
    pstateAvail := true, pstateMinOk := true, pstateMaxOk := true, pstateNoTurboOk := true,
    boostOpenOk := true, boostWriteOk := true, chargeOpenOk := true, chargeWriteOk := true,
    rfkillList := Option.none }

/-- Environment where neither fan-control path variant exists. -/
def envNoFan : Env := { envAll with fan1Exists := false, fan2Exists := false }

/-- Environment where the pstate max-percentage setter fails. -/
def envMaxFail : Env := { envAll with pstateMaxOk := false }

/-- Environment where the pstate min-percentage setter fails. -/
def envMinFail : Env := { envAll with pstateMinOk := false }

/-- Environment without the native pstate interface (AMD fallback). -/
def envAmd : Env := { envAll with pstateAvail := false }

/-- Environment where the write to the opened fan path fails. -/
def envFanWriteFail : Env := { envAll with fanWriteOk := false }

/-- Environment where `rfkill list` succeeds and reports a soft-blocked
device. -/
def envRfYes : Env :=
  { envAll with rfkillList := Option.some (true, "0: phy0: Wireless LAN\n\tSoft blocked: yes") }

/-- Environment where `rfkill list` succeeds and reports no soft-blocked
device. -/
def envRfNo : Env :=
  { envAll with rfkillList := Option.some (true, "0: phy0: Wireless LAN\n\tSoft blocked: no") }

/-- Environment where `rfkill list` exits with a non-zero status. -/
def envRfErr : Env := { envAll with rfkillList := Option.some (false, "") }

end Rog

namespace Rog

/-- C7: the byte-to-profile conversion is total with the mapping 0 to
Normal, 1 to Boost, 2 to Silent, every byte at least 3 maps to Normal, and
for in-range bytes encoding the decoded profile returns the byte. -/
theorem C7_from_u8_total_roundtrip :
    FanLevel.from_u8 0 = FanLevel.Normal ∧
    FanLevel.from_u8 1 = FanLevel.Boost ∧
    FanLevel.from_u8 2 = FanLevel.Silent ∧
    (∀ n : Nat, 3 ≤ n → FanLevel.from_u8 n = FanLevel.Normal) ∧
    (∀ n : Nat, n < 3 → FanLevel.to_u8 (FanLevel.from_u8 n) = n) := by
  refine ⟨rfl, rfl, rfl, ?_, ?_⟩
  · intro n h
    unfold FanLevel.from_u8
    split <;> first | rfl | omega
  · intro n h
    interval_cases n <;> rfl

/-- C7 witness: the theorem applied at the concrete bytes 7 and 2. -/
theorem C7_witness :
    FanLevel.from_u8 7 = FanLevel.Normal ∧
    FanLevel.to_u8 (FanLevel.from_u8 2) = 2 :=
  ⟨C7_from_u8_total_roundtrip.2.2.2.1 7 (by decide),
   C7_from_u8_total_roundtrip.2.2.2.2 2 (by decide)⟩

/-- C9: the text-to-profile conversion succeeds exactly on the strings
whose lowercasing is one of the three profile names (hence on every case
variant of them), and every other string yields the parse error, with no
fallback value. -/
theorem C9_from_str_spec (s : String) :
    (FanLevel.from_str s = Except.ok FanLevel.Normal ↔ to_lowercase s = "normal") ∧
    (FanLevel.from_str s = Except.ok FanLevel.Boost ↔ to_lowercase s = "boost") ∧
    (FanLevel.from_str s = Except.ok FanLevel.Silent ↔ to_lowercase s = "silent") ∧
    (FanLevel.from_str s = Except.error RogErr.parseFanLevel ↔
      (to_lowercase s ≠ "normal" ∧ to_lowercase s ≠ "boost" ∧ to_lowercase s ≠ "silent")) := by
  unfold FanLevel.from_str
  split_ifs with h1 h2 h3 <;> simp_all

/-- C9 witness: the theorem applied at the concrete case variants "NORMAL"
and "Boost" and the unrecognized string "fast". -/
theorem C9_witness :
    FanLevel.from_str "NORMAL" = Except.ok FanLevel.Normal ∧
    FanLevel.from_str "Boost" = Except.ok FanLevel.Boost ∧
    FanLevel.from_str "fast" = Except.error RogErr.parseFanLevel :=
  ⟨(C9_from_str_spec "NORMAL").1.mpr (by decide),
   (C9_from_str_spec "Boost").2.1.mpr (by decide),
   (C9_from_str_spec "fast").2.2.2.mpr (by decide)⟩

/-- C1 counterexample: with the out-of-range stored byte 3, the claim says
`fan_mode_step` treats it as Normal and steps to Boost, so it would call
`set_fan_mode` with encoding 1 and leave `fan_mode = 1`; the code instead
wraps every byte at least 2 to 0, leaving `fan_mode = 0`. -/
theorem C1_counterexample :
    (csOf cfg3).disk.fan_mode = 3 ∧
    FanLevel.to_u8 (step_spec (FanLevel.from_u8 (csOf cfg3).disk.fan_mode)) = 1 ∧
    (fan_mode_step envAll (csOf cfg3)).2.1.mem.fan_mode = 0 ∧
    (set_fan_mode envAll
        (FanLevel.to_u8 (step_spec (FanLevel.from_u8 (csOf cfg3).disk.fan_mode)))
        { csOf cfg3 with mem := (csOf cfg3).disk }).2.1.mem.fan_mode = 1 := by
  decide

/-- C1 amended: `fan_mode_step` reloads the configuration and calls
`set_fan_mode` with `n + 1` when the stored byte `n` is below 2 and with 0
otherwise; for in-range bytes (below 3) this is the cyclic-successor
encoding of the decoded profile, but every out-of-range byte steps to 0
(Normal), not to Boost. -/
theorem C1_step_amended (env : Env) (cs : ConfigState) :
    fan_mode_step env cs =
      set_fan_mode env (if cs.disk.fan_mode < 2 then cs.disk.fan_mode + 1 else 0)
        { cs with mem := cs.disk } ∧
    (cs.disk.fan_mode < 3 →
      (if cs.disk.fan_mode < 2 then cs.disk.fan_mode + 1 else 0) =
        FanLevel.to_u8 (step_spec (FanLevel.from_u8 cs.disk.fan_mode))) ∧
    (3 ≤ cs.disk.fan_mode →
      (if cs.disk.fan_mode < 2 then cs.disk.fan_mode + 1 else 0) = 0) := by
  refine ⟨rfl, ?_, ?_⟩
  · intro h
    set n := cs.disk.fan_mode with hn
    interval_cases n <;> rfl
  · intro h
    have h2 : ¬ cs.disk.fan_mode < 2 := by omega
    simp [h2]

/-- C1 amended witness: the theorem applied at the in-range stored byte 1
and at the out-of-range stored byte 3. -/
theorem C1_step_amended_witness :
    ((if (csOf cfg1).disk.fan_mode < 2 then (csOf cfg1).disk.fan_mode + 1 else 0) =
      FanLevel.to_u8 (step_spec (FanLevel.from_u8 (csOf cfg1).disk.fan_mode))) ∧
    ((if (csOf cfg3).disk.fan_mode < 2 then (csOf cfg3).disk.fan_mode + 1 else 0) = 0) :=
  ⟨(C1_step_amended envAll (csOf cfg1)).2.1 (by decide),
   (C1_step_amended envAll (csOf cfg3)).2.2 (by decide)⟩

/-- C2: when neither fan-control path variant exists, `set_fan_mode` (for
every argument byte) and `fan_mode_reload` return the feature-absent
`NotFound` error, leave the configuration state untouched, and produce no
effects at all — in particular `fan_mode` is not assigned and
`config.write()` is not called. -/
theorem C2_feature_absent (env : Env) (cs : ConfigState) (n : Nat)
    (h1 : env.fan1Exists = false) (h2 : env.fan2Exists = false) :
    set_fan_mode env n cs = (Except.error RogErr.ioNotFound, cs, []) ∧
    fan_mode_reload env cs = (Except.error RogErr.ioNotFound, cs, []) := by
  constructor <;> simp [set_fan_mode, fan_mode_reload, get_fan_path, h1, h2]

/-- C2 witness: the theorem applied in the environment with no fan path, at
byte 1 and the sample configuration. -/
theorem C2_witness :
    set_fan_mode envNoFan 1 (csOf cfg0) = (Except.error RogErr.ioNotFound, csOf cfg0, []) ∧
    fan_mode_reload envNoFan (csOf cfg0) = (Except.error RogErr.ioNotFound, csOf cfg0, []) :=
  ⟨(C2_feature_absent envNoFan (csOf cfg0) 1 rfl rfl).1,
   (C2_feature_absent envNoFan (csOf cfg0) 1 rfl rfl).2⟩

/-- C3: with the native pstate interface present, the CPU power step calls
the setters in the order min percentage, max percentage, no-turbo; when all
succeed the trace is exactly that sequence, and the first failing setter
returns its error with the trace stopping at it, so no later setter is
attempted (in particular a max-percentage failure means `set_no_turbo` is
never called). -/
theorem C3_pstate_order_short_circuit (env : Env) (mode : FanLevel) (c : Config)
    (hp : env.pstateAvail = true) :
    (env.pstateMinOk = true → env.pstateMaxOk = true → env.pstateNoTurboOk = true →
      set_pstate_for_fan_mode env mode c =
        (Except.ok (),
         [Effect.pstateSetMin (active_params mode c).min_percentage,
          Effect.pstateSetMax (active_params mode c).max_percentage,
          Effect.pstateSetNoTurbo (active_params mode c).no_turbo,
          Effect.logInfo "Intel CPU Power"])) ∧
    (env.pstateMinOk = false →
      set_pstate_for_fan_mode env mode c =
        (Except.error RogErr.pstateMin,
         [Effect.pstateSetMin (active_params mode c).min_percentage])) ∧
    (env.pstateMinOk = true → env.pstateMaxOk = false →
      set_pstate_for_fan_mode env mode c =
        (Except.error RogErr.pstateMax,
         [Effect.pstateSetMin (active_params mode c).min_percentage,
          Effect.pstateSetMax (active_params mode c).max_percentage])) ∧
    (env.pstateMinOk = true → env.pstateMaxOk = true → env.pstateNoTurboOk = false →
      set_pstate_for_fan_mode env mode c =
        (Except.error RogErr.pstateNoTurbo,
         [Effect.pstateSetMin (active_params mode c).min_percentage,
          Effect.pstateSetMax (active_params mode c).max_percentage,
          Effect.pstateSetNoTurbo (active_params mode c).no_turbo])) := by
  cases mode <;>
    refine ⟨?_, ?_, ?_, ?_⟩ <;>
      intro ha <;> try intro hb <;> try intro hc
  all_goals simp_all [set_pstate_for_fan_mode, active_params, hp]

/-- C3 witness: the theorem applied in the environment whose max-percentage
setter fails, at the Normal profile and the sample configuration. -/
theorem C3_witness :
    set_pstate_for_fan_mode envMaxFail FanLevel.Normal cfg0 =
      (Except.error RogErr.pstateMax,
       [Effect.pstateSetMin (active_params FanLevel.Normal cfg0).min_percentage,
        Effect.pstateSetMax (active_params FanLevel.Normal cfg0).max_percentage]) :=
  (C3_pstate_order_short_circuit envMaxFail FanLevel.Normal cfg0 rfl).2.2.1 rfl rfl

/-- C4: with no native pstate interface and an openable boost-fallback
path, the CPU power step succeeds and the value written to the boost path
is the logical negation of the active profile's `no_turbo` flag: "0" when
`no_turbo` is true and "1" when it is false. -/
theorem C4_amd_boost_inversion (env : Env) (mode : FanLevel) (c : Config)
    (hp : env.pstateAvail = false) (ho : env.boostOpenOk = true) :
    set_pstate_for_fan_mode env mode c =
      (Except.ok (),
       [Effect.logInfo "Setting pstate for AMD CPU",
        Effect.fileWrite AMD_BOOST_PATH (if (active_params mode c).no_turbo then "0" else "1")]
       ++ (if env.boostWriteOk then [] else [Effect.logError "Could not write"])
       ++ [Effect.logInfo "AMD CPU Turbo"]) ∧
    (Effect.fileWrite AMD_BOOST_PATH "0" ∈ (set_pstate_for_fan_mode env mode c).2 ↔
      (active_params mode c).no_turbo = true) ∧
    (Effect.fileWrite AMD_BOOST_PATH "1" ∈ (set_pstate_for_fan_mode env mode c).2 ↔
      (active_params mode c).no_turbo = false) := by
  cases mode
  · rcases hb : env.boostWriteOk with _ | _ <;>
      rcases hn : c.mode_performance.normal.no_turbo with _ | _ <;>
        simp_all [set_pstate_for_fan_mode, active_params, hp, ho]
  · rcases hb : env.boostWriteOk with _ | _ <;>
      rcases hn : c.mode_performance.boost.no_turbo with _ | _ <;>
        simp_all [set_pstate_for_fan_mode, active_params, hp, ho]
  · rcases hb : env.boostWriteOk with _ | _ <;>
      rcases hn : c.mode_performance.silent.no_turbo with _ | _ <;>
        simp_all [set_pstate_for_fan_mode, active_params, hp, ho]

/-- C4 witness: the theorem applied in the AMD environment at the Silent
profile (whose `no_turbo` is true in the fixture) and the sample
configuration. -/
theorem C4_witness :
    Effect.fileWrite AMD_BOOST_PATH "0" ∈ (set_pstate_for_fan_mode envAmd FanLevel.Silent cfg0).2 ∧
    Effect.fileWrite AMD_BOOST_PATH "1" ∈ (set_pstate_for_fan_mode envAmd FanLevel.Normal cfg0).2 :=
  ⟨(C4_amd_boost_inversion envAmd FanLevel.Silent cfg0 rfl rfl).2.1.mpr (by decide),
   (C4_amd_boost_inversion envAmd FanLevel.Normal cfg0 rfl rfl).2.2.mpr (by decide)⟩

/-- C5: once the fan path resolves and opens, a failing write to it is
logged at error level and not propagated: `set_fan_mode` and
`fan_mode_reload` still run the CPU power step and return success when that
step succeeds. -/
theorem C5_fan_write_failure_nonfatal (env : Env) (n : Nat) (cs : ConfigState)
    (hpath : ∃ p, get_fan_path env = Except.ok p)
    (ho : env.fanOpenOk = true) (hw : env.fanWriteOk = false)
    (hps : (set_pstate_for_fan_mode env (FanLevel.from_u8 n)
      { cs.mem with fan_mode := n }).1 = Except.ok ())
    (hpr : (set_pstate_for_fan_mode env (FanLevel.from_u8 cs.mem.fan_mode) cs.mem).1 =
      Except.ok ()) :
    (set_fan_mode env n cs).1 = Except.ok () ∧
    Effect.logError "Could not write" ∈ (set_fan_mode env n cs).2.2 ∧
    (fan_mode_reload env cs).1 = Except.ok () ∧
    Effect.logError "Could not write" ∈ (fan_mode_reload env cs).2.2 := by
  obtain ⟨p, hp⟩ := hpath
  refine ⟨?_, ?_, ?_, ?_⟩ <;>
    simp [set_fan_mode, fan_mode_reload, hp, ho, hw, hps, hpr]

/-- C5 witness: the theorem applied in the environment whose fan-path write
fails (everything else succeeding), at byte 1 and the sample
configuration. -/
theorem C5_witness :
    (set_fan_mode envFanWriteFail 1 (csOf cfg0)).1 = Except.ok () ∧
    Effect.logError "Could not write" ∈ (set_fan_mode envFanWriteFail 1 (csOf cfg0)).2.2 ∧
    (fan_mode_reload envFanWriteFail (csOf cfg0)).1 = Except.ok () ∧
    Effect.logError "Could not write" ∈ (fan_mode_reload envFanWriteFail (csOf cfg0)).2.2 :=
  C5_fan_write_failure_nonfatal envFanWriteFail 1 (csOf cfg0)
    ⟨FAN_TYPE_1_PATH, rfl⟩ rfl rfl (by decide) (by decide)

/-- C6: `set_charge_limit` never fails because of the limit value: whenever
the charge-limit path opens it writes the decimal string of the limit,
stores the limit into `bat_charge_limit` in memory and on disk, calls
`config.write()`, and returns success; a limit outside 20..=100 additionally
logs a warning. -/
theorem C6_charge_limit_lenient (env : Env) (limit : Nat) (cs : ConfigState) :
    ((limit < 20 ∨ limit > 100) →
      Effect.logWarn "charge limit must be between 20-100" ∈
        (set_charge_limit env limit cs).2.2) ∧
    (env.chargeOpenOk = false →
      (set_charge_limit env limit cs).1 = Except.error RogErr.ioOpen) ∧
    (env.chargeOpenOk = true →
      (set_charge_limit env limit cs).1 = Except.ok () ∧
      (set_charge_limit env limit cs).2.1.mem.bat_charge_limit = limit ∧
      (set_charge_limit env limit cs).2.1.disk.bat_charge_limit = limit ∧
      Effect.fileWrite BAT_CHARGE_PATH (toString limit) ∈ (set_charge_limit env limit cs).2.2 ∧
      Effect.configWrite ∈ (set_charge_limit env limit cs).2.2) := by
  rcases hw : env.chargeWriteOk with _ | _ <;>
    rcases ho : env.chargeOpenOk with _ | _ <;>
      by_cases hr : (limit < 20 ∨ limit > 100) <;>
        simp_all [set_charge_limit]

/-- C6 witness: the theorem applied at the out-of-range limit 150 in the
all-good environment. -/
theorem C6_witness :
    Effect.logWarn "charge limit must be between 20-100" ∈
      (set_charge_limit envAll 150 (csOf cfg0)).2.2 ∧
    (set_charge_limit envAll 150 (csOf cfg0)).1 = Except.ok () ∧
    (set_charge_limit envAll 150 (csOf cfg0)).2.1.disk.bat_charge_limit = 150 :=
  ⟨(C6_charge_limit_lenient envAll 150 (csOf cfg0)).1 (by omega),
   ((C6_charge_limit_lenient envAll 150 (csOf cfg0)).2.2 rfl).1,
   ((C6_charge_limit_lenient envAll 150 (csOf cfg0)).2.2 rfl).2.2.1⟩

/-- C8: `toggle_airplane_mode` spawns the unblock-all command exactly when
the listing ran, exited successfully and its output contains ": yes",
spawns the block-all command exactly when the listing ran, exited
successfully and its output does not contain ": yes", and when the listing
failed to run or exited non-zero it only logs a warning and spawns
nothing. -/
theorem C8_toggle_airplane_spec (env : Env) :
    (Effect.spawn "rfkill" ["unblock", "all"] ∈ toggle_airplane_mode env ↔
      (∃ out, env.rfkillList = Option.some (true, out) ∧ str_contains out ": yes" = true)) ∧
    (Effect.spawn "rfkill" ["block", "all"] ∈ toggle_airplane_mode env ↔
      (∃ out, env.rfkillList = Option.some (true, out) ∧ str_contains out ": yes" = false)) ∧
    ((env.rfkillList = Option.none ∨ (∃ out, env.rfkillList = Option.some (false, out))) →
      toggle_airplane_mode env = [Effect.logWarn "Could not list rf devices"] ∧
      (∀ c args, Effect.spawn c args ∉ toggle_airplane_mode env)) := by
  rcases hr : env.rfkillList with _ | ⟨s, out⟩
  · simp [toggle_airplane_mode, hr]
  · rcases s with _ | _
    · simp [toggle_airplane_mode, hr]
    · rcases hc : str_contains out ": yes" with _ | _ <;>
        simp [toggle_airplane_mode, hr, hc]

/-- C8 witness: the theorem applied in the three sample rfkill
environments: a soft-blocked listing, an unblocked listing, and a failed
listing. -/
theorem C8_witness :
    Effect.spawn "rfkill" ["unblock", "all"] ∈ toggle_airplane_mode envRfYes ∧
    Effect.spawn "rfkill" ["block", "all"] ∈ toggle_airplane_mode envRfNo ∧
    toggle_airplane_mode envRfErr = [Effect.logWarn "Could not list rf devices"] :=
  ⟨(C8_toggle_airplane_spec envRfYes).1.mpr ⟨_, rfl, by decide⟩,
   (C8_toggle_airplane_spec envRfNo).2.1.mpr ⟨_, rfl, by decide⟩,
   ((C8_toggle_airplane_spec envRfErr).2.2 (Or.inr ⟨"", rfl⟩)).1⟩

/-- C10: `set_fan_mode` assigns and persists the new profile byte before
the CPU power step (the `config.write()` effect heads the trace), so when
the pstate step fails the operation returns that error while both the
in-memory and the persisted configuration already hold the new value — the
operation is not atomic. -/
theorem C10_persists_despite_pstate_failure (env : Env) (n : Nat) (cs : ConfigState)
    (e : RogErr)
    (hpath : ∃ p, get_fan_path env = Except.ok p)
    (ho : env.fanOpenOk = true)
    (hps : (set_pstate_for_fan_mode env (FanLevel.from_u8 n)
      { cs.mem with fan_mode := n }).1 = Except.error e) :
    (set_fan_mode env n cs).1 = Except.error e ∧
    (set_fan_mode env n cs).2.1.mem.fan_mode = n ∧
    (set_fan_mode env n cs).2.1.disk.fan_mode = n ∧
    (set_fan_mode env n cs).2.2.head? = Option.some Effect.configWrite := by
  obtain ⟨p, hp⟩ := hpath
  refine ⟨?_, ?_, ?_, ?_⟩ <;> simp [set_fan_mode, hp, ho, hps]

/-- C10 witness: the theorem applied in the environment whose
min-percentage setter fails, at byte 1 and the sample configuration. -/
theorem C10_witness :
    (set_fan_mode envMinFail 1 (csOf cfg0)).1 = Except.error RogErr.pstateMin ∧
    (set_fan_mode envMinFail 1 (csOf cfg0)).2.1.disk.fan_mode = 1 ∧
    (set_fan_mode envMinFail 1 (csOf cfg0)).2.2.head? = Option.some Effect.configWrite :=
  ⟨(C10_persists_despite_pstate_failure envMinFail 1 (csOf cfg0) RogErr.pstateMin
      ⟨FAN_TYPE_1_PATH, rfl⟩ rfl (by decide)).1,
   (C10_persists_despite_pstate_failure envMinFail 1 (csOf cfg0) RogErr.pstateMin
      ⟨FAN_TYPE_1_PATH, rfl⟩ rfl (by decide)).2.2.1,
   (C10_persists_despite_pstate_failure envMinFail 1 (csOf cfg0) RogErr.pstateMin
      ⟨FAN_TYPE_1_PATH, rfl⟩ rfl (by decide)).2.2.2⟩

end Rog
